import Mathlib

/-!
# bcam_focus: a command-line focuser mover

Shallow embedding of `libfli-1.104/bcam_focus.c`.  The program is a linear
sequence of calls into the vendor library `libfli`; each call is followed by a
`printf` and, on a non-zero return code, by `exit(1)`.

* The vendor library is modelled by a *response script* (`Device`): for each of
  the seven calls the program can make, the return code and the value written
  through the output pointer.
* A run of `main` is its *trace* (the device calls with their return codes and
  the `printf` outputs, in program order) together with the exit status.
* C `long` is the 64-bit two's-complement integer of LP64 Linux, C `int` is
  32 bits; arithmetic that can overflow is wrapped explicitly.
* The device handle `dev` is the one `FLIOpen` stores and every later call
  passes on, so it is left out of the calls.  A return code is the value the
  program keeps in its `int err`.  `malloc` is taken to succeed.
-/

namespace BcamFocus

/-! ## Machine integers -/

/-- Largest value of a C `long` (LP64). -/
def LONG_MAX : Int := 2 ^ 63 - 1

/-- Smallest value of a C `long` (LP64). -/
def LONG_MIN : Int := -(2 ^ 63)

/-- The integer is representable as a C `long`. -/
def isLong (x : Int) : Prop := LONG_MIN ≤ x ∧ x ≤ LONG_MAX

instance (x : Int) : Decidable (isLong x) := by
  unfold isLong; exact inferInstance

/-- Two's-complement reduction of a mathematical integer to a C `long`. -/
def wrapLong (x : Int) : Int := (x + 2 ^ 63) % 2 ^ 64 - 2 ^ 63

/-- Two's-complement reduction of a mathematical integer to a C `int`. -/
def wrapInt (x : Int) : Int := (x + 2 ^ 31) % 2 ^ 32 - 2 ^ 31

/-- Saturation to the range of a C `long`, as `strtol` does on overflow. -/
def clampLong (x : Int) : Int :=
  if x < LONG_MIN then LONG_MIN else if LONG_MAX < x then LONG_MAX else x

/-! ## The C library -/

/-- The C predicate `isspace` in the "C" locale: space, `\t`, `\n`, `\v`, `\f`, `\r`. -/
def isspace (c : Char) : Bool :=
  c.toNat = 32 || (9 ≤ c.toNat && c.toNat ≤ 13)

/-- The C predicate `isdigit`. -/
def isdigit (c : Char) : Bool :=
  48 ≤ c.toNat && c.toNat ≤ 57

/-- Value of the longest prefix of decimal digits, starting from the accumulator `acc`. -/
def digitsValue : List Char → Nat → Nat
  | [], acc => acc
  | c :: cs, acc => if isdigit c then digitsValue cs (acc * 10 + (c.toNat - 48)) else acc

/-- The C library function `atol`, that is `strtol(nptr, NULL, 10)`: skip leading
white space, read an optional sign, then the longest run of decimal digits; no
digits give 0.  A value outside the range of `long` saturates (glibc). -/
def atol (s : String) : Int :=
  match s.toList.dropWhile isspace with
  | '-' :: cs => clampLong (-(digitsValue cs 0 : Nat))
  | '+' :: cs => clampLong (digitsValue cs 0 : Nat)
  | cs => clampLong (digitsValue cs 0 : Nat)

/-- The `printf` conversion `%ld`: decimal digits, with a leading `-` when negative. -/
def fmtLd (x : Int) : String := toString x

/-- A C `double`, given by its IEEE-754 bit pattern. -/
structure Double where
  bits : Nat
  deriving DecidableEq, Repr

/-- What the program takes from its environment without defining it: the libc
functions `strerror` and the `printf` conversion `%.2f`, and the constants of
`libfli.h`. -/
structure Env where
  strerror : Int → String
  fmt2f : Double → String
  FLIDOMAIN_USB : Nat
  FLIDEVICE_FOCUSER : Nat
  FLI_TEMPERATURE_INTERNAL : Nat

/-! ## The device library -/

/-- The response script of the vendor library for one run: for each call the
program can make, the value assigned to `err` and the value stored through the
output pointer.  `position` answers the first `FLIGetStepperPosition` (before
the move), `position2` the second (after the move). -/
structure Device where
  open_err : Int
  model_err : Int
  model : String
  position_err : Int
  position : Int
  extent_err : Int
  extent : Int
  temp_err : Int
  T_int : Double
  step_err : Int
  position2_err : Int
  position2 : Int

/-- A call into `libfli`, with the arguments the program chooses. -/
inductive Call where
  | FLIOpen (name : String) (domain : Nat)
  | FLIGetModel (len : Nat)
  | FLIGetStepperPosition
  | FLIGetFocuserExtent
  | FLIReadTemperature (channel : Nat)
  | FLIStepMotor (steps : Int)
  deriving DecidableEq, Repr

/-- An observable event of a run: a device call with the code it returned, or
the text written by one `printf`. -/
inductive Event where
  | call (c : Call) (err : Int)
  | print (text : String)
  deriving DecidableEq, Repr

/-- A finished run: events in program order, and the process exit status. -/
structure Run where
  trace : List Event
  status : Int
  deriving DecidableEq, Repr

/-- The device calls of a trace, in order. -/
def calls : List Event → List Call
  | [] => []
  | Event.call c _ :: es => c :: calls es
  | Event.print _ :: es => calls es

/-- The `printf` outputs of a trace, in order. -/
def output : List Event → List String
  | [] => []
  | Event.call _ _ :: es => output es
  | Event.print s :: es => s :: output es

/-! ## The program -/

/-- The function `main` of `bcam_focus.c`.  `argv` holds all `argc` arguments,
the program name first. -/
def main (env : Env) (argv : List String) (d : Device) : Run :=
  if argv.length < 2 then
    { trace := [Event.print "Usage: bcam_focus <position>\n"], status := 1 }
  else
    let domain := env.FLIDOMAIN_USB ||| env.FLIDEVICE_FOCUSER
    let new := atol (argv.getD 1 "")
    let t1 := [Event.call (Call.FLIOpen "/dev/fliusb0" domain) d.open_err]
    if d.open_err ≠ 0 then
      { trace := t1 ++ [Event.print ("Error opening FLI device: "
          ++ env.strerror (wrapInt (-d.open_err)) ++ "\n")], status := 1 }
    else
    let t2 := t1 ++ [Event.call (Call.FLIGetModel 256) d.model_err]
    if d.model_err ≠ 0 then
      { trace := t2 ++ [Event.print ("Error querying FLI model: "
          ++ env.strerror (wrapInt (-d.model_err)) ++ "\n")], status := 1 }
    else
    let t3 := t2 ++ [Event.print ("FLI model: " ++ d.model ++ "\n"),
      Event.call Call.FLIGetStepperPosition d.position_err]
    if d.position_err ≠ 0 then
      { trace := t3 ++ [Event.print ("Error querying FLI stepper position: "
          ++ env.strerror (wrapInt (-d.position_err)) ++ "\n")], status := 1 }
    else
    let position := d.position
    let t4 := t3 ++ [Event.print ("FLI stepper position: " ++ fmtLd position ++ "\n"),
      Event.call Call.FLIGetFocuserExtent d.extent_err]
    if d.extent_err ≠ 0 then
      { trace := t4 ++ [Event.print ("Error querying FLI maximum stepper position: "
          ++ env.strerror (wrapInt (-d.extent_err)) ++ "\n")], status := 1 }
    else
    let extent := d.extent
    let t5 := t4 ++ [Event.print ("FLI maximum stepper position: " ++ fmtLd extent ++ "\n")]
    if new < 0 ∨ new > extent then
      { trace := t5 ++ [Event.print ("Need to specify focuser position between 0 and "
          ++ fmtLd extent ++ ".\n")], status := 1 }
    else
    let t6 := t5 ++ [Event.call (Call.FLIReadTemperature env.FLI_TEMPERATURE_INTERNAL) d.temp_err]
    if d.temp_err ≠ 0 then
      { trace := t6 ++ [Event.print ("Error querying FLI internal temperature: "
          ++ env.strerror (wrapInt (-d.temp_err)) ++ "\n")], status := 1 }
    else
    let delta := wrapLong (new - position)
    let t7 := t6 ++ [Event.print ("FLI T_int: " ++ env.fmt2f d.T_int ++ "\n"),
      Event.print "\n",
      Event.print ("Moving " ++ fmtLd delta ++ " steps...\n"),
      Event.call (Call.FLIStepMotor delta) d.step_err]
    if d.step_err ≠ 0 then
      { trace := t7 ++ [Event.print ("Error commanding FLI motor: "
          ++ env.strerror (wrapInt (-d.step_err)) ++ "\n")], status := 1 }
    else
    let t8 := t7 ++ [Event.call Call.FLIGetStepperPosition d.position2_err]
    if d.position2_err ≠ 0 then
      { trace := t8 ++ [Event.print ("Error querying FLI stepper position: "
          ++ env.strerror (wrapInt (-d.position2_err)) ++ "\n")], status := 1 }
    else
    let position := d.position2
    { trace := t8 ++ [Event.print ("FLI stepper position: " ++ fmtLd position ++ "\n")],
      status := 0 }

/-! ## Sample inputs -/

/-- A sample environment: the `libfli.h` values of release 1.104 and a
constant `strerror`. -/
def env0 : Env :=
  { strerror := fun _ => "No such device"
    fmt2f := fun _ => "21.50"
    FLIDOMAIN_USB := 2
    FLIDEVICE_FOCUSER := 768
    FLI_TEMPERATURE_INTERNAL := 0 }

/-- A focuser at step 1200 of 7000 that answers every call with success and
reports the position 3000 after the move. -/
def dev0 : Device :=
  { open_err := 0, model_err := 0, model := "PDF Focuser"
    position_err := 0, position := 1200
    extent_err := 0, extent := 7000
    temp_err := 0, T_int := ⟨0⟩
    step_err := 0
    position2_err := 0, position2 := 3000 }

/-- The argument the program parses: `argv[1]`. -/
def target (argv : List String) : Int := atol (argv.getD 1 "")

/-- The characters of an argument after its leading white space and one optional sign. -/
def afterSpaceAndSign (s : String) : List Char :=
  match s.toList.dropWhile isspace with
  | '-' :: cs => cs
  | '+' :: cs => cs
  | cs => cs

/-- The argument does not start with a decimal digit after its optional
leading white space and sign. -/
def nonNumeric (s : String) : Bool :=
  match afterSpaceAndSign s with
  | [] => true
  | c :: _ => !isdigit c

theorem clampLong_isLong (x : Int) : isLong (clampLong x) := by
  unfold clampLong isLong LONG_MIN LONG_MAX
  split_ifs <;> constructor <;> omega

theorem atol_isLong (s : String) : isLong (atol s) := by
  unfold atol
  split <;> exact clampLong_isLong _

theorem wrapLong_of_isLong (x : Int) (h : isLong x) : wrapLong x = x := by
  unfold isLong LONG_MIN LONG_MAX at h
  unfold wrapLong
  omega

theorem digitsValue_nonDigit (cs : List Char)
    (h : ∀ c rest, cs = c :: rest → isdigit c = false) : digitsValue cs 0 = 0 := by
  cases cs with
  | nil => rfl
  | cons c rest => simp [digitsValue, h c rest rfl]

theorem atol_nonNumeric (s : String) (h : nonNumeric s = true) : atol s = 0 := by
  have key : digitsValue (afterSpaceAndSign s) 0 = 0 := by
    apply digitsValue_nonDigit
    intro c rest hc
    unfold nonNumeric at h
    rw [hc] at h
    simpa using h
  unfold afterSpaceAndSign at key
  unfold atol
  generalize s.toList.dropWhile isspace = l at key
  rcases l with _ | ⟨c, cs⟩
  · decide
  · by_cases hm : c = '-'
    · subst hm
      simp only at key
      simp only [key]
      decide
    · by_cases hp : c = '+'
      · subst hp
        simp only at key
        simp only [key]
        decide
      · have e1 : (match c :: cs with
            | '-' :: cs => cs
            | '+' :: cs => cs
            | cs => cs) = c :: cs := by
          split
          · rename_i heq; cases heq; exact absurd rfl hm
          · rename_i heq; cases heq; exact absurd rfl hp
          · rfl
        rw [e1] at key
        have e2 : (match c :: cs with
            | '-' :: cs => clampLong (-((digitsValue cs 0 : Nat) : Int))
            | '+' :: cs => clampLong ((digitsValue cs 0 : Nat) : Int)
            | cs => clampLong ((digitsValue cs 0 : Nat) : Int))
              = clampLong ((digitsValue (c :: cs) 0 : Nat) : Int) := by
          split
          · rename_i heq; cases heq; exact absurd rfl hm
          · rename_i heq; cases heq; exact absurd rfl hp
          · rfl
        rw [e2, key]
        decide

/-! ## The ten paths through `main` -/

theorem main_usage (env : Env) (argv : List String) (d : Device) (harg : argv.length < 2) :
    main env argv d =
      { trace := [Event.print "Usage: bcam_focus <position>\n"], status := 1 } := by
  simp only [main, if_pos harg]

theorem main_open_fail (env : Env) (argv : List String) (d : Device)
    (harg : 2 ≤ argv.length) (h1 : d.open_err ≠ 0) :
    main env argv d =
      { trace := [Event.call (Call.FLIOpen "/dev/fliusb0" (env.FLIDOMAIN_USB ||| env.FLIDEVICE_FOCUSER))
            d.open_err,
          Event.print ("Error opening FLI device: "
            ++ env.strerror (wrapInt (-d.open_err)) ++ "\n")],
        status := 1 } := by
  have harg0 : ¬ argv.length < 2 := by omega
  simp only [main, if_neg harg0, h1,
    ne_eq, not_true_eq_false, not_false_eq_true, if_true, if_false,
    List.cons_append, List.nil_append]

theorem main_model_fail (env : Env) (argv : List String) (d : Device)
    (harg : 2 ≤ argv.length) (h1 : d.open_err = 0) (h2 : d.model_err ≠ 0) :
    main env argv d =
      { trace := [Event.call (Call.FLIOpen "/dev/fliusb0" (env.FLIDOMAIN_USB ||| env.FLIDEVICE_FOCUSER)) 0,
          Event.call (Call.FLIGetModel 256) d.model_err,
          Event.print ("Error querying FLI model: "
            ++ env.strerror (wrapInt (-d.model_err)) ++ "\n")],
        status := 1 } := by
  have harg0 : ¬ argv.length < 2 := by omega
  simp only [main, if_neg harg0, h1, h2,
    ne_eq, not_true_eq_false, not_false_eq_true, if_true, if_false,
    List.cons_append, List.nil_append]

theorem main_position_fail (env : Env) (argv : List String) (d : Device)
    (harg : 2 ≤ argv.length) (h1 : d.open_err = 0) (h2 : d.model_err = 0)
    (h3 : d.position_err ≠ 0) :
    main env argv d =
      { trace := [Event.call (Call.FLIOpen "/dev/fliusb0" (env.FLIDOMAIN_USB ||| env.FLIDEVICE_FOCUSER)) 0,
          Event.call (Call.FLIGetModel 256) 0,
          Event.print ("FLI model: " ++ d.model ++ "\n"),
          Event.call Call.FLIGetStepperPosition d.position_err,
          Event.print ("Error querying FLI stepper position: "
            ++ env.strerror (wrapInt (-d.position_err)) ++ "\n")],
        status := 1 } := by
  have harg0 : ¬ argv.length < 2 := by omega
  simp only [main, if_neg harg0, h1, h2, h3,
    ne_eq, not_true_eq_false, not_false_eq_true, if_true, if_false,
    List.cons_append, List.nil_append]

theorem main_extent_fail (env : Env) (argv : List String) (d : Device)
    (harg : 2 ≤ argv.length) (h1 : d.open_err = 0) (h2 : d.model_err = 0)
    (h3 : d.position_err = 0) (h4 : d.extent_err ≠ 0) :
    main env argv d =
      { trace := [Event.call (Call.FLIOpen "/dev/fliusb0" (env.FLIDOMAIN_USB ||| env.FLIDEVICE_FOCUSER)) 0,
          Event.call (Call.FLIGetModel 256) 0,
          Event.print ("FLI model: " ++ d.model ++ "\n"),
          Event.call Call.FLIGetStepperPosition 0,
          Event.print ("FLI stepper position: " ++ fmtLd d.position ++ "\n"),
          Event.call Call.FLIGetFocuserExtent d.extent_err,
          Event.print ("Error querying FLI maximum stepper position: "
            ++ env.strerror (wrapInt (-d.extent_err)) ++ "\n")],
        status := 1 } := by
  have harg0 : ¬ argv.length < 2 := by omega
  simp only [main, if_neg harg0, h1, h2, h3, h4,
    ne_eq, not_true_eq_false, not_false_eq_true, if_true, if_false,
    List.cons_append, List.nil_append]

theorem main_reject (env : Env) (argv : List String) (d : Device)
    (harg : 2 ≤ argv.length) (h1 : d.open_err = 0) (h2 : d.model_err = 0)
    (h3 : d.position_err = 0) (h4 : d.extent_err = 0)
    (hr : target argv < 0 ∨ target argv > d.extent) :
    main env argv d =
      { trace := [Event.call (Call.FLIOpen "/dev/fliusb0" (env.FLIDOMAIN_USB ||| env.FLIDEVICE_FOCUSER)) 0,
          Event.call (Call.FLIGetModel 256) 0,
          Event.print ("FLI model: " ++ d.model ++ "\n"),
          Event.call Call.FLIGetStepperPosition 0,
          Event.print ("FLI stepper position: " ++ fmtLd d.position ++ "\n"),
          Event.call Call.FLIGetFocuserExtent 0,
          Event.print ("FLI maximum stepper position: " ++ fmtLd d.extent ++ "\n"),
          Event.print ("Need to specify focuser position between 0 and "
            ++ fmtLd d.extent ++ ".\n")],
        status := 1 } := by
  have harg0 : ¬ argv.length < 2 := by omega
  unfold target at *
  simp only [main, if_neg harg0, h1, h2, h3, h4, if_pos hr,
    ne_eq, not_true_eq_false, not_false_eq_true, if_true, if_false,
    List.cons_append, List.nil_append]

theorem main_temp_fail (env : Env) (argv : List String) (d : Device)
    (harg : 2 ≤ argv.length) (h1 : d.open_err = 0) (h2 : d.model_err = 0)
    (h3 : d.position_err = 0) (h4 : d.extent_err = 0)
    (hr : ¬ (target argv < 0 ∨ target argv > d.extent)) (h5 : d.temp_err ≠ 0) :
    main env argv d =
      { trace := [Event.call (Call.FLIOpen "/dev/fliusb0" (env.FLIDOMAIN_USB ||| env.FLIDEVICE_FOCUSER)) 0,
          Event.call (Call.FLIGetModel 256) 0,
          Event.print ("FLI model: " ++ d.model ++ "\n"),
          Event.call Call.FLIGetStepperPosition 0,
          Event.print ("FLI stepper position: " ++ fmtLd d.position ++ "\n"),
          Event.call Call.FLIGetFocuserExtent 0,
          Event.print ("FLI maximum stepper position: " ++ fmtLd d.extent ++ "\n"),
          Event.call (Call.FLIReadTemperature env.FLI_TEMPERATURE_INTERNAL) d.temp_err,
          Event.print ("Error querying FLI internal temperature: "
            ++ env.strerror (wrapInt (-d.temp_err)) ++ "\n")],
        status := 1 } := by
  have harg0 : ¬ argv.length < 2 := by omega
  unfold target at *
  simp only [main, if_neg harg0, h1, h2, h3, h4, if_neg hr, h5,
    ne_eq, not_true_eq_false, not_false_eq_true, if_true, if_false,
    List.cons_append, List.nil_append]

theorem main_step_fail (env : Env) (argv : List String) (d : Device)
    (harg : 2 ≤ argv.length) (h1 : d.open_err = 0) (h2 : d.model_err = 0)
    (h3 : d.position_err = 0) (h4 : d.extent_err = 0)
    (hr : ¬ (target argv < 0 ∨ target argv > d.extent)) (h5 : d.temp_err = 0)
    (h6 : d.step_err ≠ 0) :
    main env argv d =
      { trace := [Event.call (Call.FLIOpen "/dev/fliusb0" (env.FLIDOMAIN_USB ||| env.FLIDEVICE_FOCUSER)) 0,
          Event.call (Call.FLIGetModel 256) 0,
          Event.print ("FLI model: " ++ d.model ++ "\n"),
          Event.call Call.FLIGetStepperPosition 0,
          Event.print ("FLI stepper position: " ++ fmtLd d.position ++ "\n"),
          Event.call Call.FLIGetFocuserExtent 0,
          Event.print ("FLI maximum stepper position: " ++ fmtLd d.extent ++ "\n"),
          Event.call (Call.FLIReadTemperature env.FLI_TEMPERATURE_INTERNAL) 0,
          Event.print ("FLI T_int: " ++ env.fmt2f d.T_int ++ "\n"),
          Event.print "\n",
          Event.print ("Moving " ++ fmtLd (wrapLong (target argv - d.position)) ++ " steps...\n"),
          Event.call (Call.FLIStepMotor (wrapLong (target argv - d.position))) d.step_err,
          Event.print ("Error commanding FLI motor: "
            ++ env.strerror (wrapInt (-d.step_err)) ++ "\n")],
        status := 1 } := by
  have harg0 : ¬ argv.length < 2 := by omega
  unfold target at *
  simp only [main, if_neg harg0, h1, h2, h3, h4, h5, if_neg hr, h6,
    ne_eq, not_true_eq_false, not_false_eq_true, if_true, if_false,
    List.cons_append, List.nil_append]

theorem main_position2_fail (env : Env) (argv : List String) (d : Device)
    (harg : 2 ≤ argv.length) (h1 : d.open_err = 0) (h2 : d.model_err = 0)
    (h3 : d.position_err = 0) (h4 : d.extent_err = 0)
    (hr : ¬ (target argv < 0 ∨ target argv > d.extent)) (h5 : d.temp_err = 0)
    (h6 : d.step_err = 0) (h7 : d.position2_err ≠ 0) :
    main env argv d =
      { trace := [Event.call (Call.FLIOpen "/dev/fliusb0" (env.FLIDOMAIN_USB ||| env.FLIDEVICE_FOCUSER)) 0,
          Event.call (Call.FLIGetModel 256) 0,
          Event.print ("FLI model: " ++ d.model ++ "\n"),
          Event.call Call.FLIGetStepperPosition 0,
          Event.print ("FLI stepper position: " ++ fmtLd d.position ++ "\n"),
          Event.call Call.FLIGetFocuserExtent 0,
          Event.print ("FLI maximum stepper position: " ++ fmtLd d.extent ++ "\n"),
          Event.call (Call.FLIReadTemperature env.FLI_TEMPERATURE_INTERNAL) 0,
          Event.print ("FLI T_int: " ++ env.fmt2f d.T_int ++ "\n"),
          Event.print "\n",
          Event.print ("Moving " ++ fmtLd (wrapLong (target argv - d.position)) ++ " steps...\n"),
          Event.call (Call.FLIStepMotor (wrapLong (target argv - d.position))) 0,
          Event.call Call.FLIGetStepperPosition d.position2_err,
          Event.print ("Error querying FLI stepper position: "
            ++ env.strerror (wrapInt (-d.position2_err)) ++ "\n")],
        status := 1 } := by
  have harg0 : ¬ argv.length < 2 := by omega
  unfold target at *
  simp only [main, if_neg harg0, h1, h2, h3, h4, h5, h6, if_neg hr, h7,
    ne_eq, not_true_eq_false, not_false_eq_true, if_true, if_false,
    List.cons_append, List.nil_append]

theorem main_done (env : Env) (argv : List String) (d : Device)
    (harg : 2 ≤ argv.length) (h1 : d.open_err = 0) (h2 : d.model_err = 0)
    (h3 : d.position_err = 0) (h4 : d.extent_err = 0)
    (hr : ¬ (target argv < 0 ∨ target argv > d.extent)) (h5 : d.temp_err = 0)
    (h6 : d.step_err = 0) (h7 : d.position2_err = 0) :
    main env argv d =
      { trace := [Event.call (Call.FLIOpen "/dev/fliusb0" (env.FLIDOMAIN_USB ||| env.FLIDEVICE_FOCUSER)) 0,
          Event.call (Call.FLIGetModel 256) 0,
          Event.print ("FLI model: " ++ d.model ++ "\n"),
          Event.call Call.FLIGetStepperPosition 0,
          Event.print ("FLI stepper position: " ++ fmtLd d.position ++ "\n"),
          Event.call Call.FLIGetFocuserExtent 0,
          Event.print ("FLI maximum stepper position: " ++ fmtLd d.extent ++ "\n"),
          Event.call (Call.FLIReadTemperature env.FLI_TEMPERATURE_INTERNAL) 0,
          Event.print ("FLI T_int: " ++ env.fmt2f d.T_int ++ "\n"),
          Event.print "\n",
          Event.print ("Moving " ++ fmtLd (wrapLong (target argv - d.position)) ++ " steps...\n"),
          Event.call (Call.FLIStepMotor (wrapLong (target argv - d.position))) 0,
          Event.call Call.FLIGetStepperPosition 0,
          Event.print ("FLI stepper position: " ++ fmtLd d.position2 ++ "\n")],
        status := 0 } := by
  have harg0 : ¬ argv.length < 2 := by omega
  unfold target at *
  simp only [main, if_neg harg0, h1, h2, h3, h4, h5, h6, h7, if_neg hr,
    ne_eq, not_true_eq_false, not_false_eq_true, if_true, if_false,
    List.cons_append, List.nil_append]

/-! ## Lemmas on whole runs -/

theorem reject_printed_imp (env : Env) (argv : List String) (d : Device) (x : String)
    (h : Event.print ("Need to specify focuser position between 0 and " ++ x ++ ".\n")
      ∈ (main env argv d).trace) :
    2 ≤ argv.length ∧ d.open_err = 0 ∧ d.model_err = 0 ∧ d.position_err = 0
      ∧ d.extent_err = 0 ∧ (target argv < 0 ∨ target argv > d.extent) := by
  by_cases harg0 : argv.length < 2
  · rw [main_usage env argv d harg0] at h
    simp [String.ext_iff] at h
  have harg : 2 ≤ argv.length := by omega
  by_cases h1 : d.open_err = 0; swap
  · rw [main_open_fail env argv d harg h1] at h
    simp [String.ext_iff] at h
  by_cases h2 : d.model_err = 0; swap
  · rw [main_model_fail env argv d harg h1 h2] at h
    simp [String.ext_iff] at h
  by_cases h3 : d.position_err = 0; swap
  · rw [main_position_fail env argv d harg h1 h2 h3] at h
    simp [String.ext_iff] at h
  by_cases h4 : d.extent_err = 0; swap
  · rw [main_extent_fail env argv d harg h1 h2 h3 h4] at h
    simp [String.ext_iff] at h
  by_cases hr : target argv < 0 ∨ target argv > d.extent
  · exact ⟨harg, h1, h2, h3, h4, hr⟩
  exfalso
  by_cases h5 : d.temp_err = 0; swap
  · rw [main_temp_fail env argv d harg h1 h2 h3 h4 hr h5] at h
    simp [String.ext_iff] at h
  by_cases h6 : d.step_err = 0; swap
  · rw [main_step_fail env argv d harg h1 h2 h3 h4 hr h5 h6] at h
    simp [String.ext_iff] at h
  by_cases h7 : d.position2_err = 0; swap
  · rw [main_position2_fail env argv d harg h1 h2 h3 h4 hr h5 h6 h7] at h
    simp [String.ext_iff] at h
  rw [main_done env argv d harg h1 h2 h3 h4 hr h5 h6 h7] at h
  simp [String.ext_iff] at h

theorem main_congr_target (env : Env) (argv other : List String) (d : Device)
    (h : 2 ≤ argv.length) (ho : 2 ≤ other.length) (ht : target argv = target other) :
    main env argv d = main env other d := by
  have h0 : ¬ argv.length < 2 := by omega
  have ho0 : ¬ other.length < 2 := by omega
  unfold target at ht
  simp only [main, if_neg h0, if_neg ho0, ht]

theorem temp_called_imp (env : Env) (argv : List String) (d : Device)
    (pre post : List Event) (channel : Nat) (err : Int)
    (h : (main env argv d).trace = pre ++ Event.call (Call.FLIReadTemperature channel) err :: post) :
    calls pre =
        [Call.FLIOpen "/dev/fliusb0" (env.FLIDOMAIN_USB ||| env.FLIDEVICE_FOCUSER),
          Call.FLIGetModel 256, Call.FLIGetStepperPosition, Call.FLIGetFocuserExtent]
    ∧ ¬ (target argv < 0 ∨ target argv > d.extent) := by
  by_cases harg0 : argv.length < 2
  · rw [main_usage env argv d harg0] at h
    simp [List.cons_eq_append_iff] at h
  have harg : 2 ≤ argv.length := by omega
  by_cases h1 : d.open_err = 0; swap
  · rw [main_open_fail env argv d harg h1] at h
    simp [List.cons_eq_append_iff] at h
  by_cases h2 : d.model_err = 0; swap
  · rw [main_model_fail env argv d harg h1 h2] at h
    simp [List.cons_eq_append_iff] at h
  by_cases h3 : d.position_err = 0; swap
  · rw [main_position_fail env argv d harg h1 h2 h3] at h
    simp [List.cons_eq_append_iff] at h
  by_cases h4 : d.extent_err = 0; swap
  · rw [main_extent_fail env argv d harg h1 h2 h3 h4] at h
    simp [List.cons_eq_append_iff] at h
  by_cases hr : target argv < 0 ∨ target argv > d.extent
  · rw [main_reject env argv d harg h1 h2 h3 h4 hr] at h
    simp [List.cons_eq_append_iff] at h
  refine ⟨?_, hr⟩
  by_cases h5 : d.temp_err = 0; swap
  · rw [main_temp_fail env argv d harg h1 h2 h3 h4 hr h5] at h
    simp [List.cons_eq_append_iff] at h
    obtain ⟨_, rfl, _, rfl, _, rfl, _, rfl, _, rfl, _, rfl, _, rfl, rfl, _⟩ := h
    rfl
  by_cases h6 : d.step_err = 0; swap
  · rw [main_step_fail env argv d harg h1 h2 h3 h4 hr h5 h6] at h
    simp [List.cons_eq_append_iff] at h
    obtain ⟨_, rfl, _, rfl, _, rfl, _, rfl, _, rfl, _, rfl, _, rfl, rfl, _⟩ := h
    rfl
  by_cases h7 : d.position2_err = 0; swap
  · rw [main_position2_fail env argv d harg h1 h2 h3 h4 hr h5 h6 h7] at h
    simp [List.cons_eq_append_iff] at h
    obtain ⟨_, rfl, _, rfl, _, rfl, _, rfl, _, rfl, _, rfl, _, rfl, rfl, _⟩ := h
    rfl
  rw [main_done env argv d harg h1 h2 h3 h4 hr h5 h6 h7] at h
  simp [List.cons_eq_append_iff] at h
  obtain ⟨_, rfl, _, rfl, _, rfl, _, rfl, _, rfl, _, rfl, _, rfl, rfl, _⟩ := h
  rfl

/-! ## The claims -/

/-- C1. Target validation: when the argument is present and `FLIOpen`,
`FLIGetModel`, `FLIGetStepperPosition` and `FLIGetFocuserExtent` all return 0,
the program rejects the target (prints "Need to specify focuser position
between 0 and <extent>.", exits with status 1 and never calls `FLIStepMotor`)
if and only if the target is below 0 or above the extent; the boundary targets
0 and extent of a non-empty range are not rejected, the program goes on to
read the temperature. -/
theorem C1_target_validation (env : Env) (argv : List String) (d : Device)
    (harg : 2 ≤ argv.length) (h1 : d.open_err = 0) (h2 : d.model_err = 0)
    (h3 : d.position_err = 0) (h4 : d.extent_err = 0) :
    ((Event.print ("Need to specify focuser position between 0 and " ++ fmtLd d.extent ++ ".\n")
          ∈ (main env argv d).trace
        ∧ (main env argv d).status = 1
        ∧ ∀ steps err, Event.call (Call.FLIStepMotor steps) err ∉ (main env argv d).trace)
      ↔ (target argv < 0 ∨ target argv > d.extent))
    ∧ (0 ≤ d.extent → (target argv = 0 ∨ target argv = d.extent) →
        Event.print ("Need to specify focuser position between 0 and " ++ fmtLd d.extent ++ ".\n")
          ∉ (main env argv d).trace
        ∧ Event.call (Call.FLIReadTemperature env.FLI_TEMPERATURE_INTERNAL) d.temp_err
          ∈ (main env argv d).trace) := by
  have hrej : ∀ hr : target argv < 0 ∨ target argv > d.extent,
      Event.print ("Need to specify focuser position between 0 and " ++ fmtLd d.extent ++ ".\n")
          ∈ (main env argv d).trace
        ∧ (main env argv d).status = 1
        ∧ ∀ steps err, Event.call (Call.FLIStepMotor steps) err ∉ (main env argv d).trace := by
    intro hr
    rw [main_reject env argv d harg h1 h2 h3 h4 hr]
    simp
  refine ⟨⟨fun h => (reject_printed_imp env argv d _ h.1).2.2.2.2.2, hrej⟩, ?_⟩
  intro hext hb
  have hr : ¬ (target argv < 0 ∨ target argv > d.extent) := by
    rcases hb with hb | hb <;> rw [hb] <;> omega
  refine ⟨fun h => hr (reject_printed_imp env argv d _ h).2.2.2.2.2, ?_⟩
  by_cases h5 : d.temp_err = 0; swap
  · rw [main_temp_fail env argv d harg h1 h2 h3 h4 hr h5]
    simp
  by_cases h6 : d.step_err = 0; swap
  · rw [main_step_fail env argv d harg h1 h2 h3 h4 hr h5 h6]
    simp [h5]
  by_cases h7 : d.position2_err = 0; swap
  · rw [main_position2_fail env argv d harg h1 h2 h3 h4 hr h5 h6 h7]
    simp [h5]
  rw [main_done env argv d harg h1 h2 h3 h4 hr h5 h6 h7]
  simp [h5]

/-- C1 at a sample run: the boundary target 7000 on a focuser of extent 7000
is not rejected. -/
theorem C1_target_validation_witness :
    (2 ≤ ["bcam_focus", "7000"].length ∧ dev0.open_err = 0 ∧ dev0.model_err = 0
      ∧ dev0.position_err = 0 ∧ dev0.extent_err = 0 ∧ 0 ≤ dev0.extent
      ∧ target ["bcam_focus", "7000"] = dev0.extent)
    ∧ Event.print ("Need to specify focuser position between 0 and " ++ fmtLd dev0.extent ++ ".\n")
        ∉ (main env0 ["bcam_focus", "7000"] dev0).trace
    ∧ Event.call (Call.FLIReadTemperature env0.FLI_TEMPERATURE_INTERNAL) dev0.temp_err
        ∈ (main env0 ["bcam_focus", "7000"] dev0).trace :=
  ⟨⟨by decide, rfl, rfl, rfl, rfl, by decide, by decide⟩,
    (C1_target_validation env0 ["bcam_focus", "7000"] dev0 (by decide) rfl rfl rfl rfl).2
      (by decide) (Or.inr (by decide))⟩

/-- C2. Relative step computation: in every run that reaches the move, the
step count passed to `FLIStepMotor` is the C `long` difference `target -
position`, where `position` is the answer of the first
`FLIGetStepperPosition`; when that position lies in `[0, extent]` the
difference does not wrap, so `position + delta = target`. -/
theorem C2_relative_step (env : Env) (argv : List String) (d : Device)
    (harg : 2 ≤ argv.length) (h1 : d.open_err = 0) (h2 : d.model_err = 0)
    (h3 : d.position_err = 0) (h4 : d.extent_err = 0)
    (hlo : 0 ≤ target argv) (hhi : target argv ≤ d.extent) (h5 : d.temp_err = 0) :
    Event.call (Call.FLIStepMotor (wrapLong (target argv - d.position))) d.step_err
        ∈ (main env argv d).trace
    ∧ (∀ steps err, Event.call (Call.FLIStepMotor steps) err ∈ (main env argv d).trace →
        steps = wrapLong (target argv - d.position))
    ∧ (isLong d.position → 0 ≤ d.position → d.position ≤ d.extent →
        wrapLong (target argv - d.position) = target argv - d.position
        ∧ d.position + wrapLong (target argv - d.position) = target argv) := by
  have hr : ¬ (target argv < 0 ∨ target argv > d.extent) := by omega
  have harith : isLong d.position → 0 ≤ d.position → d.position ≤ d.extent →
      wrapLong (target argv - d.position) = target argv - d.position
      ∧ d.position + wrapLong (target argv - d.position) = target argv := by
    intro hp hp0 _
    have ht : isLong (target argv) := atol_isLong _
    have hw : wrapLong (target argv - d.position) = target argv - d.position := by
      apply wrapLong_of_isLong
      unfold isLong LONG_MIN LONG_MAX at *
      omega
    rw [hw]
    omega
  refine ⟨?_, ?_, harith⟩
  · by_cases h6 : d.step_err = 0; swap
    · rw [main_step_fail env argv d harg h1 h2 h3 h4 hr h5 h6]
      simp
    by_cases h7 : d.position2_err = 0; swap
    · rw [main_position2_fail env argv d harg h1 h2 h3 h4 hr h5 h6 h7]
      simp [h6]
    rw [main_done env argv d harg h1 h2 h3 h4 hr h5 h6 h7]
    simp [h6]
  · intro steps err hm
    by_cases h6 : d.step_err = 0; swap
    · rw [main_step_fail env argv d harg h1 h2 h3 h4 hr h5 h6] at hm
      simp at hm
      exact hm.1
    by_cases h7 : d.position2_err = 0; swap
    · rw [main_position2_fail env argv d harg h1 h2 h3 h4 hr h5 h6 h7] at hm
      simp at hm
      exact hm.1
    rw [main_done env argv d harg h1 h2 h3 h4 hr h5 h6 h7] at hm
    simp at hm
    exact hm.1

/-- C2 at a sample run: from position 1200 to target 3000 the motor is stepped
by the exact difference. -/
theorem C2_relative_step_witness :
    (2 ≤ ["bcam_focus", "3000"].length ∧ dev0.open_err = 0 ∧ dev0.model_err = 0
      ∧ dev0.position_err = 0 ∧ dev0.extent_err = 0
      ∧ 0 ≤ target ["bcam_focus", "3000"] ∧ target ["bcam_focus", "3000"] ≤ dev0.extent
      ∧ dev0.temp_err = 0 ∧ isLong dev0.position ∧ 0 ≤ dev0.position
      ∧ dev0.position ≤ dev0.extent)
    ∧ Event.call (Call.FLIStepMotor (wrapLong (target ["bcam_focus", "3000"] - dev0.position)))
        dev0.step_err ∈ (main env0 ["bcam_focus", "3000"] dev0).trace
    ∧ wrapLong (target ["bcam_focus", "3000"] - dev0.position)
        = target ["bcam_focus", "3000"] - dev0.position
    ∧ dev0.position + wrapLong (target ["bcam_focus", "3000"] - dev0.position)
        = target ["bcam_focus", "3000"] :=
  ⟨⟨by decide, rfl, rfl, rfl, rfl, by decide, by decide, rfl, by decide, by decide, by decide⟩,
    (C2_relative_step env0 ["bcam_focus", "3000"] dev0 (by decide) rfl rfl rfl rfl
      (by decide) (by decide) rfl).1,
    (C2_relative_step env0 ["bcam_focus", "3000"] dev0 (by decide) rfl rfl rfl rfl
      (by decide) (by decide) rfl).2.2 (by decide) (by decide) (by decide)⟩

/-- C4 as stated fails: for the argument "-5" on a focuser of extent 7000 the
target is rejected, and the internal temperature has not been queried. -/
theorem C4_counterexample :
    ¬ (Event.print "Need to specify focuser position between 0 and 7000.\n"
          ∈ (main env0 ["bcam_focus", "-5"] dev0).trace →
        ∃ channel err, Event.call (Call.FLIReadTemperature channel) err
          ∈ (main env0 ["bcam_focus", "-5"] dev0).trace) := by
  intro h
  obtain ⟨channel, err, hm⟩ := h (by decide)
  have ht : (main env0 ["bcam_focus", "-5"] dev0).trace =
      [Event.call (Call.FLIOpen "/dev/fliusb0" 770) 0,
        Event.call (Call.FLIGetModel 256) 0,
        Event.print "FLI model: PDF Focuser\n",
        Event.call Call.FLIGetStepperPosition 0,
        Event.print "FLI stepper position: 1200\n",
        Event.call Call.FLIGetFocuserExtent 0,
        Event.print "FLI maximum stepper position: 7000\n",
        Event.print "Need to specify focuser position between 0 and 7000.\n"] := by decide
  rw [ht] at hm
  simp at hm

/-- C4, amended. The program queries the model, the stepper position and the
extent before it validates the target, and the temperature only after the
target is accepted: a run that prints the rejection has made exactly the calls
`FLIOpen`, `FLIGetModel`, `FLIGetStepperPosition`, `FLIGetFocuserExtent` before
it, in this order, and never calls `FLIReadTemperature`; a run that calls
`FLIReadTemperature` has made exactly these four calls before it, its target is
within `[0, extent]`, and it prints no rejection. -/
theorem C4_query_order (env : Env) (argv : List String) (d : Device) :
    (∀ x : String,
      Event.print ("Need to specify focuser position between 0 and " ++ x ++ ".\n")
          ∈ (main env argv d).trace →
      (∃ pre, (main env argv d).trace = pre ++
          [Event.print ("Need to specify focuser position between 0 and "
            ++ fmtLd d.extent ++ ".\n")]
        ∧ calls pre =
          [Call.FLIOpen "/dev/fliusb0" (env.FLIDOMAIN_USB ||| env.FLIDEVICE_FOCUSER),
            Call.FLIGetModel 256, Call.FLIGetStepperPosition, Call.FLIGetFocuserExtent])
      ∧ (∀ channel err, Event.call (Call.FLIReadTemperature channel) err
          ∉ (main env argv d).trace)
      ∧ (target argv < 0 ∨ target argv > d.extent))
    ∧ (∀ (pre post : List Event) (channel : Nat) (err : Int),
      (main env argv d).trace = pre ++ Event.call (Call.FLIReadTemperature channel) err :: post →
      calls pre =
          [Call.FLIOpen "/dev/fliusb0" (env.FLIDOMAIN_USB ||| env.FLIDEVICE_FOCUSER),
            Call.FLIGetModel 256, Call.FLIGetStepperPosition, Call.FLIGetFocuserExtent]
      ∧ (0 ≤ target argv ∧ target argv ≤ d.extent)
      ∧ (∀ x : String,
          Event.print ("Need to specify focuser position between 0 and " ++ x ++ ".\n")
            ∉ (main env argv d).trace)) := by
  constructor
  · intro x hx
    obtain ⟨harg, h1, h2, h3, h4, hr⟩ := reject_printed_imp env argv d x hx
    rw [main_reject env argv d harg h1 h2 h3 h4 hr]
    refine ⟨⟨[Event.call (Call.FLIOpen "/dev/fliusb0"
          (env.FLIDOMAIN_USB ||| env.FLIDEVICE_FOCUSER)) 0,
        Event.call (Call.FLIGetModel 256) 0,
        Event.print ("FLI model: " ++ d.model ++ "\n"),
        Event.call Call.FLIGetStepperPosition 0,
        Event.print ("FLI stepper position: " ++ fmtLd d.position ++ "\n"),
        Event.call Call.FLIGetFocuserExtent 0,
        Event.print ("FLI maximum stepper position: " ++ fmtLd d.extent ++ "\n")], rfl, rfl⟩,
      ?_, hr⟩
    intro channel err
    simp
  · intro pre post channel err htrace
    have hacc := temp_called_imp env argv d pre post channel err htrace
    refine ⟨hacc.1, ?_, ?_⟩
    · have := hacc.2
      omega
    · intro x hx
      exact hacc.2 (reject_printed_imp env argv d x hx).2.2.2.2.2

/-- C4 (amended) at a sample run: the argument "-5" is rejected after the
extent query and without a temperature query. -/
theorem C4_query_order_witness :
    Event.print ("Need to specify focuser position between 0 and " ++ "7000" ++ ".\n")
        ∈ (main env0 ["bcam_focus", "-5"] dev0).trace
    ∧ (∀ channel err, Event.call (Call.FLIReadTemperature channel) err
        ∉ (main env0 ["bcam_focus", "-5"] dev0).trace)
    ∧ (target ["bcam_focus", "-5"] < 0 ∨ target ["bcam_focus", "-5"] > dev0.extent) :=
  ⟨by decide,
    ((C4_query_order env0 ["bcam_focus", "-5"] dev0).1 "7000" (by decide)).2⟩

/-- C5. Reported resulting position: when every device call returns 0 and the
target is within `[0, extent]`, the last output is "FLI stepper position: <p>"
with `p` the answer of the second `FLIGetStepperPosition`, which is the call
made right after `FLIStepMotor`, and the exit status is 0. -/
theorem C5_reported_position (env : Env) (argv : List String) (d : Device)
    (harg : 2 ≤ argv.length) (h1 : d.open_err = 0) (h2 : d.model_err = 0)
    (h3 : d.position_err = 0) (h4 : d.extent_err = 0)
    (hlo : 0 ≤ target argv) (hhi : target argv ≤ d.extent)
    (h5 : d.temp_err = 0) (h6 : d.step_err = 0) (h7 : d.position2_err = 0) :
    (output (main env argv d).trace).getLast?
        = some ("FLI stepper position: " ++ fmtLd d.position2 ++ "\n")
    ∧ (∃ pre, (main env argv d).trace = pre ++
        [Event.call (Call.FLIStepMotor (wrapLong (target argv - d.position))) 0,
          Event.call Call.FLIGetStepperPosition 0,
          Event.print ("FLI stepper position: " ++ fmtLd d.position2 ++ "\n")])
    ∧ (main env argv d).status = 0 := by
  have hr : ¬ (target argv < 0 ∨ target argv > d.extent) := by omega
  rw [main_done env argv d harg h1 h2 h3 h4 hr h5 h6 h7]
  refine ⟨by simp [output], ?_, rfl⟩
  exact ⟨[Event.call (Call.FLIOpen "/dev/fliusb0" (env.FLIDOMAIN_USB ||| env.FLIDEVICE_FOCUSER)) 0,
    Event.call (Call.FLIGetModel 256) 0,
    Event.print ("FLI model: " ++ d.model ++ "\n"),
    Event.call Call.FLIGetStepperPosition 0,
    Event.print ("FLI stepper position: " ++ fmtLd d.position ++ "\n"),
    Event.call Call.FLIGetFocuserExtent 0,
    Event.print ("FLI maximum stepper position: " ++ fmtLd d.extent ++ "\n"),
    Event.call (Call.FLIReadTemperature env.FLI_TEMPERATURE_INTERNAL) 0,
    Event.print ("FLI T_int: " ++ env.fmt2f d.T_int ++ "\n"),
    Event.print "\n",
    Event.print ("Moving " ++ fmtLd (wrapLong (target argv - d.position)) ++ " steps...\n")], rfl⟩

/-- C5 at a sample run: the device reports 3000 after a move commanded to
2000 from 1200, and 3000 is what the last line shows. -/
theorem C5_reported_position_witness :
    (2 ≤ ["bcam_focus", "2000"].length ∧ dev0.open_err = 0 ∧ dev0.model_err = 0
      ∧ dev0.position_err = 0 ∧ dev0.extent_err = 0
      ∧ 0 ≤ target ["bcam_focus", "2000"] ∧ target ["bcam_focus", "2000"] ≤ dev0.extent
      ∧ dev0.temp_err = 0 ∧ dev0.step_err = 0 ∧ dev0.position2_err = 0)
    ∧ (output (main env0 ["bcam_focus", "2000"] dev0).trace).getLast?
        = some ("FLI stepper position: " ++ fmtLd 3000 ++ "\n")
    ∧ (main env0 ["bcam_focus", "2000"] dev0).status = 0 :=
  ⟨⟨by decide, rfl, rfl, rfl, rfl, by decide, by decide, rfl, rfl, rfl⟩,
    (C5_reported_position env0 ["bcam_focus", "2000"] dev0 (by decide) rfl rfl rfl rfl
      (by decide) (by decide) rfl rfl rfl).1,
    (C5_reported_position env0 ["bcam_focus", "2000"] dev0 (by decide) rfl rfl rfl rfl
      (by decide) (by decide) rfl rfl rfl).2.2⟩

/-- C6. Linear call sequence on success: with an argument present, every device
call returning 0 and the target within `[0, extent]`, the device calls are
exactly `FLIOpen("/dev/fliusb0", USB | FOCUSER)`, `FLIGetModel`,
`FLIGetStepperPosition`, `FLIGetFocuserExtent`, `FLIReadTemperature(internal)`,
`FLIStepMotor(target - position)`, `FLIGetStepperPosition`, once each and in this
order; `FLIStepMotor` is called also when the difference is 0. -/
theorem C6_call_sequence (env : Env) (argv : List String) (d : Device)
    (harg : 2 ≤ argv.length) (h1 : d.open_err = 0) (h2 : d.model_err = 0)
    (h3 : d.position_err = 0) (h4 : d.extent_err = 0)
    (hlo : 0 ≤ target argv) (hhi : target argv ≤ d.extent)
    (h5 : d.temp_err = 0) (h6 : d.step_err = 0) (h7 : d.position2_err = 0) :
    calls (main env argv d).trace =
        [Call.FLIOpen "/dev/fliusb0" (env.FLIDOMAIN_USB ||| env.FLIDEVICE_FOCUSER),
          Call.FLIGetModel 256,
          Call.FLIGetStepperPosition,
          Call.FLIGetFocuserExtent,
          Call.FLIReadTemperature env.FLI_TEMPERATURE_INTERNAL,
          Call.FLIStepMotor (wrapLong (target argv - d.position)),
          Call.FLIGetStepperPosition]
    ∧ (target argv = d.position →
        (calls (main env argv d).trace).count (Call.FLIStepMotor 0) = 1) := by
  have hr : ¬ (target argv < 0 ∨ target argv > d.extent) := by omega
  rw [main_done env argv d harg h1 h2 h3 h4 hr h5 h6 h7]
  refine ⟨by simp [calls], ?_⟩
  intro he
  have hz : wrapLong (target argv - d.position) = 0 := by
    rw [he, sub_self]; decide
  rw [hz]
  simp [calls]

/-- C6 at a sample run: the target 1200 equals the current position, and the
motor is still stepped once, by 0. -/
theorem C6_call_sequence_witness :
    (2 ≤ ["bcam_focus", "1200"].length ∧ dev0.open_err = 0 ∧ dev0.model_err = 0
      ∧ dev0.position_err = 0 ∧ dev0.extent_err = 0
      ∧ 0 ≤ target ["bcam_focus", "1200"] ∧ target ["bcam_focus", "1200"] ≤ dev0.extent
      ∧ dev0.temp_err = 0 ∧ dev0.step_err = 0 ∧ dev0.position2_err = 0
      ∧ target ["bcam_focus", "1200"] = dev0.position)
    ∧ calls (main env0 ["bcam_focus", "1200"] dev0).trace =
        [Call.FLIOpen "/dev/fliusb0" (env0.FLIDOMAIN_USB ||| env0.FLIDEVICE_FOCUSER),
          Call.FLIGetModel 256,
          Call.FLIGetStepperPosition,
          Call.FLIGetFocuserExtent,
          Call.FLIReadTemperature env0.FLI_TEMPERATURE_INTERNAL,
          Call.FLIStepMotor (wrapLong (target ["bcam_focus", "1200"] - dev0.position)),
          Call.FLIGetStepperPosition]
    ∧ (calls (main env0 ["bcam_focus", "1200"] dev0).trace).count (Call.FLIStepMotor 0) = 1 :=
  ⟨⟨by decide, rfl, rfl, rfl, rfl, by decide, by decide, rfl, rfl, rfl, by decide⟩,
    (C6_call_sequence env0 ["bcam_focus", "1200"] dev0 (by decide) rfl rfl rfl rfl
      (by decide) (by decide) rfl rfl rfl).1,
    (C6_call_sequence env0 ["bcam_focus", "1200"] dev0 (by decide) rfl rfl rfl rfl
      (by decide) (by decide) rfl rfl rfl).2 (by decide)⟩

/-- C7. Missing argument: with fewer than two arguments the program prints
"Usage: bcam_focus <position>", exits with status 1 and makes no device call;
with two or more, the run depends on `argv[1]` only, not on the program name
or on the arguments after it. -/
theorem C7_missing_argument (env : Env) (d : Device) :
    (∀ argv : List String, argv.length < 2 →
      main env argv d =
        { trace := [Event.print "Usage: bcam_focus <position>\n"], status := 1 }
      ∧ calls (main env argv d).trace = []
      ∧ output (main env argv d).trace = ["Usage: bcam_focus <position>\n"])
    ∧ (∀ (a0 b0 a1 : String) (rest more : List String),
      main env (a0 :: a1 :: rest) d = main env (b0 :: a1 :: more) d) := by
  constructor
  · intro argv harg
    rw [main_usage env argv d harg]
    simp [calls, output]
  · intro a0 b0 a1 rest more
    exact main_congr_target env _ _ d (by simp) (by simp) rfl

/-- C7 at a sample run: the program name alone. -/
theorem C7_missing_argument_witness :
    ["bcam_focus"].length < 2
    ∧ main env0 ["bcam_focus"] dev0 =
        { trace := [Event.print "Usage: bcam_focus <position>\n"], status := 1 }
    ∧ calls (main env0 ["bcam_focus"] dev0).trace = []
    ∧ output (main env0 ["bcam_focus"] dev0).trace = ["Usage: bcam_focus <position>\n"] :=
  ⟨by decide, (C7_missing_argument env0 dev0).1 ["bcam_focus"] (by decide)⟩

/-- C8. A non-numeric argument is taken as 0: when the argument, after its
leading white space and optional sign, does not start with a decimal digit,
`atol` gives 0 and the run is the run for the argument "0"; so when the extent
is not negative and every device call returns 0, nothing is rejected, the motor
is stepped by the C `long` value of `-position` and the exit status is 0; for
every `long` position but `LONG_MIN` that value is exactly `-position`, so that
`position + delta = 0`. -/
theorem C8_non_numeric (env : Env) (a0 s : String) (rest : List String) (d : Device)
    (hs : nonNumeric s = true) :
    atol s = 0
    ∧ target (a0 :: s :: rest) = 0
    ∧ main env (a0 :: s :: rest) d = main env (a0 :: "0" :: rest) d
    ∧ (d.open_err = 0 → d.model_err = 0 → d.position_err = 0 → d.extent_err = 0 →
        d.temp_err = 0 → d.step_err = 0 → d.position2_err = 0 → 0 ≤ d.extent →
        (∀ x, Event.print ("Need to specify focuser position between 0 and " ++ x ++ ".\n")
            ∉ (main env (a0 :: s :: rest) d).trace)
        ∧ Event.call (Call.FLIStepMotor (wrapLong (0 - d.position))) 0
            ∈ (main env (a0 :: s :: rest) d).trace
        ∧ (main env (a0 :: s :: rest) d).status = 0
        ∧ (isLong d.position → d.position ≠ LONG_MIN →
            wrapLong (0 - d.position) = -d.position
            ∧ d.position + wrapLong (0 - d.position) = 0)) := by
  have hz : atol s = 0 := atol_nonNumeric s hs
  have ht : target (a0 :: s :: rest) = 0 := by simp [target, hz]
  refine ⟨hz, ht, ?_, ?_⟩
  · exact main_congr_target env _ _ d (by simp) (by simp) (by rw [ht]; show (0 : Int) = atol "0"; decide)
  · intro h1 h2 h3 h4 h5 h6 h7 hext
    have harg : 2 ≤ (a0 :: s :: rest).length := by simp
    have hr : ¬ (target (a0 :: s :: rest) < 0 ∨ target (a0 :: s :: rest) > d.extent) := by
      rw [ht]; omega
    refine ⟨fun x hx => hr (reject_printed_imp env _ d x hx).2.2.2.2.2, ?_, ?_, ?_⟩
    · rw [main_done env _ d harg h1 h2 h3 h4 hr h5 h6 h7, ht]
      simp
    · rw [main_done env _ d harg h1 h2 h3 h4 hr h5 h6 h7]
    · intro hp hne
      have hw : wrapLong (0 - d.position) = 0 - d.position := by
        apply wrapLong_of_isLong
        unfold isLong LONG_MIN LONG_MAX at *
        omega
      rw [hw]
      omega

/-- C8 at a sample run: the argument "abc" drives the focuser from 1200 by -1200. -/
theorem C8_non_numeric_witness :
    nonNumeric "abc" = true
    ∧ atol "abc" = 0
    ∧ Event.call (Call.FLIStepMotor (wrapLong (0 - dev0.position))) 0
        ∈ (main env0 ["bcam_focus", "abc"] dev0).trace
    ∧ (main env0 ["bcam_focus", "abc"] dev0).status = 0
    ∧ (wrapLong (0 - dev0.position) = -dev0.position
      ∧ dev0.position + wrapLong (0 - dev0.position) = 0) :=
  ⟨by decide,
    (C8_non_numeric env0 "bcam_focus" "abc" [] dev0 (by decide)).1,
    ((C8_non_numeric env0 "bcam_focus" "abc" [] dev0 (by decide)).2.2.2
      rfl rfl rfl rfl rfl rfl rfl (by decide)).2.1,
    ((C8_non_numeric env0 "bcam_focus" "abc" [] dev0 (by decide)).2.2.2
      rfl rfl rfl rfl rfl rfl rfl (by decide)).2.2.1,
    ((C8_non_numeric env0 "bcam_focus" "abc" [] dev0 (by decide)).2.2.2
      rfl rfl rfl rfl rfl rfl rfl (by decide)).2.2.2 (by decide) (by decide)⟩

/-- C9. The post-move check does not compare: two runs that differ only in the
position answered by the second `FLIGetStepperPosition` have the same exit
status, the same device calls and the same output up to its last entry; and
there is a run with every device call returning 0 and the target within
`[0, extent]` in which the re-queried position differs from the target and the
exit status is still 0. -/
theorem C9_no_comparison :
    (∀ (env : Env) (argv : List String) (d : Device) (p q : Int),
      (main env argv { d with position2 := p }).status
          = (main env argv { d with position2 := q }).status
      ∧ calls (main env argv { d with position2 := p }).trace
          = calls (main env argv { d with position2 := q }).trace
      ∧ (output (main env argv { d with position2 := p }).trace).dropLast
          = (output (main env argv { d with position2 := q }).trace).dropLast)
    ∧ (∃ (env : Env) (argv : List String) (d : Device),
      2 ≤ argv.length ∧ d.open_err = 0 ∧ d.model_err = 0 ∧ d.position_err = 0
      ∧ d.extent_err = 0 ∧ d.temp_err = 0 ∧ d.step_err = 0 ∧ d.position2_err = 0
      ∧ 0 ≤ target argv ∧ target argv ≤ d.extent
      ∧ d.position2 ≠ target argv
      ∧ (main env argv d).status = 0) := by
  constructor
  · intro env argv d p q
    by_cases harg0 : argv.length < 2
    · rw [main_usage env argv { d with position2 := p } harg0,
        main_usage env argv { d with position2 := q } harg0]
      exact ⟨rfl, rfl, rfl⟩
    have harg : 2 ≤ argv.length := by omega
    by_cases h1 : d.open_err = 0; swap
    · rw [main_open_fail env argv { d with position2 := p } harg h1,
        main_open_fail env argv { d with position2 := q } harg h1]
      exact ⟨rfl, rfl, rfl⟩
    by_cases h2 : d.model_err = 0; swap
    · rw [main_model_fail env argv { d with position2 := p } harg h1 h2,
        main_model_fail env argv { d with position2 := q } harg h1 h2]
      exact ⟨rfl, rfl, rfl⟩
    by_cases h3 : d.position_err = 0; swap
    · rw [main_position_fail env argv { d with position2 := p } harg h1 h2 h3,
        main_position_fail env argv { d with position2 := q } harg h1 h2 h3]
      exact ⟨rfl, rfl, rfl⟩
    by_cases h4 : d.extent_err = 0; swap
    · rw [main_extent_fail env argv { d with position2 := p } harg h1 h2 h3 h4,
        main_extent_fail env argv { d with position2 := q } harg h1 h2 h3 h4]
      exact ⟨rfl, rfl, rfl⟩
    by_cases hr : target argv < 0 ∨ target argv > d.extent
    · rw [main_reject env argv { d with position2 := p } harg h1 h2 h3 h4 hr,
        main_reject env argv { d with position2 := q } harg h1 h2 h3 h4 hr]
      exact ⟨rfl, rfl, rfl⟩
    by_cases h5 : d.temp_err = 0; swap
    · rw [main_temp_fail env argv { d with position2 := p } harg h1 h2 h3 h4 hr h5,
        main_temp_fail env argv { d with position2 := q } harg h1 h2 h3 h4 hr h5]
      exact ⟨rfl, rfl, rfl⟩
    by_cases h6 : d.step_err = 0; swap
    · rw [main_step_fail env argv { d with position2 := p } harg h1 h2 h3 h4 hr h5 h6,
        main_step_fail env argv { d with position2 := q } harg h1 h2 h3 h4 hr h5 h6]
      exact ⟨rfl, rfl, rfl⟩
    by_cases h7 : d.position2_err = 0; swap
    · rw [main_position2_fail env argv { d with position2 := p } harg h1 h2 h3 h4 hr h5 h6 h7,
        main_position2_fail env argv { d with position2 := q } harg h1 h2 h3 h4 hr h5 h6 h7]
      exact ⟨rfl, rfl, rfl⟩
    rw [main_done env argv { d with position2 := p } harg h1 h2 h3 h4 hr h5 h6 h7,
      main_done env argv { d with position2 := q } harg h1 h2 h3 h4 hr h5 h6 h7]
    exact ⟨rfl, rfl, rfl⟩
  · exact ⟨env0, ["bcam_focus", "2000"], dev0, by decide, rfl, rfl, rfl, rfl, rfl, rfl, rfl,
      by decide, by decide, by decide, by decide⟩

end BcamFocus
